import Mathlib

/-!
Shallow embedding of the timer screen of `assignment-react-native`
(`src/unnamed/part_000`): the `Timer` record, the periodic tick update,
the single-timer and category action dispatchers, and timer creation.

Numbers: the source stores `duration` and `remainingTime` as JavaScript
numbers, which on all inputs reachable through this code are integers
(or `NaN`, see `CreateOutcome.addedNaN`); we model them as `Int`.
The halfway comparison `newRemainingTime <= timer.duration / 2` uses
exact JS float division; for integers `n <= d / 2` holds iff
`2 * n <= d`, which is how the test is written below.
-/

namespace TimerApp

/-- Timer status literals of the source union type
`'idle' | 'running' | 'paused' | 'completed'`. -/
inductive TStatus where
  | idle
  | running
  | paused
  | completed
deriving DecidableEq

/-- The `Timer` record of the source. The optional field
`halfwayAlertTriggered?` is modelled as a `Bool` with the absent /
`undefined` value identified with `false`: the source only ever reads it
through the boolean test `!timer.halfwayAlertTriggered`, and only ever
writes the literals `true` and `false`, so `undefined` and `false` are
observationally equal. `halfwayAlert` is the creation-time enable flag
(the spec calls it `halfwayAlertEnabled`). -/
structure Timer where
  id : String
  name : String
  duration : Int
  remainingTime : Int
  category : String
  status : TStatus
  halfwayAlert : Bool
  halfwayAlertTriggered : Bool
deriving DecidableEq

/-- Events emitted by the tick update: `completion` carries the history
entry payload built by `handleTimerComplete` (`timerId`, `name`,
`category`; the wall-clock `completedAt` is outside the model), and
`halfwayHit` stands for the halfway `Alert.alert` with the timer name. -/
inductive TimerEvent where
  | completion (timerId : String) (name : String) (category : String)
  | halfwayHit (name : String)
deriving DecidableEq

/-- One timer's update in the tick interval callback (source lines
54-77): non-running timers are returned unchanged; otherwise
`newRemainingTime = remainingTime - 1`; if it is `<= 0` the timer is
completed (remainingTime clamped to 0) and a completion event is
emitted; else if the halfway alert is enabled, not yet triggered, and
`newRemainingTime <= duration / 2`, the halfway event fires and the
latch is set; else only `remainingTime` is updated. The source's local
binding `newRemainingTime` is inlined as `timer.remainingTime - 1`. -/
def tickTimer (timer : Timer) : Timer × Option TimerEvent :=
  if timer.status ≠ TStatus.running then (timer, none)
  else if timer.remainingTime - 1 ≤ 0 then
    ({ timer with remainingTime := 0, status := TStatus.completed },
     some (TimerEvent.completion timer.id timer.name timer.category))
  else if timer.halfwayAlert = true ∧ timer.halfwayAlertTriggered = false ∧
      2 * (timer.remainingTime - 1) ≤ timer.duration then
    ({ timer with remainingTime := timer.remainingTime - 1, halfwayAlertTriggered := true },
     some (TimerEvent.halfwayHit timer.name))
  else
    ({ timer with remainingTime := timer.remainingTime - 1 }, none)

/-- The new snapshot computed by one firing of the tick interval:
`currentTimers.map (timer => ...)`. -/
def advanceTimers (timers : List Timer) : List Timer :=
  timers.map fun timer => (tickTimer timer).1

/-- The events emitted during one firing of the tick interval, in
timer order. -/
def advanceEvents (timers : List Timer) : List TimerEvent :=
  timers.filterMap fun timer => (tickTimer timer).2

/-- The action literals `'start' | 'pause' | 'reset'`. -/
inductive TAction where
  | start
  | pause
  | reset
deriving DecidableEq

/-- The switch body shared verbatim by `handleTimerAction` (source
lines 179-193) and `handleCategoryAction` (source lines 207-221). -/
def applyAction (action : TAction) (timer : Timer) : Timer :=
  match action with
  | TAction.start => { timer with status := TStatus.running }
  | TAction.pause => { timer with status := TStatus.paused }
  | TAction.reset =>
      { timer with
          remainingTime := timer.duration,
          status := TStatus.idle,
          halfwayAlertTriggered := false }

/-- `handleTimerAction` (source lines 172-198): map over the snapshot,
returning non-matching timers unchanged. -/
def handleTimerAction (timers : List Timer) (timerId : String) (action : TAction) :
    List Timer :=
  timers.map fun timer =>
    if timer.id ≠ timerId then timer else applyAction action timer

/-- `handleCategoryAction` (source lines 200-226): same switch applied
to every timer of the category. -/
def handleCategoryAction (timers : List Timer) (category : String) (action : TAction) :
    List Timer :=
  timers.map fun timer =>
    if timer.category ≠ category then timer else applyAction action timer

/-- Value of a nonempty digit run, most significant first. -/
def digitsToNat (ds : List Char) : Nat :=
  ds.foldl (fun acc c => acc * 10 + (c.toNat - 48)) 0

/-- Longest leading run of decimal digits; `none` when there is none
(which makes `parseInt` return `NaN`). -/
def leadingDigits (cs : List Char) : Option Nat :=
  match cs.takeWhile Char.isDigit with
  | [] => none
  | ds => some (digitsToNat ds)

/-- JavaScript `parseInt(s, 10)`: skip leading whitespace, accept an
optional sign, then read the longest leading digit run; `none` models
the `NaN` result. -/
def jsParseInt (s : String) : Option Int :=
  match s.data.dropWhile Char.isWhitespace with
  | '-' :: rest => (leadingDigits rest).map fun n => -(n : Int)
  | '+' :: rest => (leadingDigits rest).map fun n => (n : Int)
  | cs => (leadingDigits cs).map fun n => (n : Int)

/-- The `newTimer` form state fed to `handleAddTimer`: all three text
fields are raw strings. -/
structure NewTimerInput where
  name : String
  duration : String
  category : String
  halfwayAlert : Bool
deriving DecidableEq

/-- Outcome of `handleAddTimer` (source lines 103-125).
`validationError` is the `Alert.alert('Error', 'Please fill in all
fields')` early return. `added` carries the constructed timer.
`addedNaN` records the source behavior on a non-empty duration string
with no leading digits: `parseInt` yields `NaN`, and a timer whose
`duration` and `remainingTime` are `NaN` is appended — such a timer is
not representable with `Int` fields, so it is kept as this symbolic
outcome. -/
inductive CreateOutcome where
  | validationError
  | added (timer : Timer)
  | addedNaN (id : String) (name : String) (category : String) (halfwayAlert : Bool)
deriving DecidableEq

/-- `handleAddTimer`: the emptiness check `!newTimer.name ||
!newTimer.duration || !newTimer.category` (a JS string is falsy exactly
when empty), then `parseInt(newTimer.duration, 10)` and construction of
the timer. `newId` stands for `Date.now().toString()`. Note the source
never checks that `parseInt` produced a positive integer. -/
def handleAddTimer (newTimer : NewTimerInput) (newId : String) : CreateOutcome :=
  if newTimer.name = "" ∨ newTimer.duration = "" ∨ newTimer.category = "" then
    CreateOutcome.validationError
  else
    match jsParseInt newTimer.duration with
    | some d =>
        CreateOutcome.added
          { id := newId, name := newTimer.name, duration := d,
            remainingTime := d, category := newTimer.category,
            status := TStatus.idle, halfwayAlert := newTimer.halfwayAlert,
            halfwayAlertTriggered := false }
    | none => CreateOutcome.addedNaN newId newTimer.name newTimer.category newTimer.halfwayAlert

/-- Effect of `handleAddTimer` on the timer collection
(`[...timers, timer]` on success, unchanged on the validation early
return). The `NaN` outcome appends a timer not representable in the
`Int` model, signalled by `none`. -/
def handleAddTimerState (newTimer : NewTimerInput) (timers : List Timer)
    (newId : String) : Option (List Timer) :=
  match handleAddTimer newTimer newId with
  | CreateOutcome.validationError => some timers
  | CreateOutcome.added t => some (timers ++ [t])
  | CreateOutcome.addedNaN _ _ _ _ => none

/-- One step of a single timer's life as driven by the screen: either a
firing of the tick interval, or one of the dispatcher actions applied
to it (directly or through its category — both dispatchers apply the
same `applyAction` switch to a targeted timer). -/
inductive TStep where
  | tick
  | act (action : TAction)
deriving DecidableEq

/-- The timer after one step. -/
def stepTimer (s : TStep) (t : Timer) : Timer :=
  match s with
  | TStep.tick => (tickTimer t).1
  | TStep.act a => applyAction a t

/-- The event the step emits for this timer (actions emit none). -/
def stepEvent (s : TStep) (t : Timer) : Option TimerEvent :=
  match s with
  | TStep.tick => (tickTimer t).2
  | TStep.act _ => none

/-- The timer after a sequence of steps. -/
def runTimer (t : Timer) : List TStep → Timer
  | [] => t
  | s :: rest => runTimer (stepTimer s t) rest

/-- Whether an emitted event is a completion event. -/
def isCompletionEvent : Option TimerEvent → Bool
  | some (TimerEvent.completion _ _ _) => true
  | _ => false

/-- Whether an emitted event is a halfway alert. -/
def isHalfwayEvent : Option TimerEvent → Bool
  | some (TimerEvent.halfwayHit _) => true
  | _ => false

/-- Number of steps along the trace at which the halfway latch
transitions from `false` to `true`. -/
def countLatchSets (t : Timer) : List TStep → Nat
  | [] => 0
  | s :: rest =>
      (if t.halfwayAlertTriggered = false ∧ (stepTimer s t).halfwayAlertTriggered = true
        then 1 else 0) + countLatchSets (stepTimer s t) rest

/-- Number of completion events emitted along the trace. -/
def countCompletions (t : Timer) : List TStep → Nat
  | [] => 0
  | s :: rest =>
      (if isCompletionEvent (stepEvent s t) then 1 else 0) +
        countCompletions (stepTimer s t) rest

/-- Number of halfway events emitted along the trace. -/
def countHalfwayEvents (t : Timer) : List TStep → Nat
  | [] => 0
  | s :: rest =>
      (if isHalfwayEvent (stepEvent s t) then 1 else 0) +
        countHalfwayEvents (stepTimer s t) rest

/-- Well-formedness bound of the data model: `0 <= remainingTime <=
duration` with a positive integer duration. -/
def wfTimer (t : Timer) : Prop :=
  0 < t.duration ∧ 0 ≤ t.remainingTime ∧ t.remainingTime ≤ t.duration

instance (t : Timer) : Decidable (wfTimer t) := by
  unfold wfTimer; infer_instance

/-- Sample timer used by witnesses: a running 10-second timer with the
halfway alert enabled. -/
def teaTimer : Timer :=
  { id := "t1", name := "Tea", duration := 10, remainingTime := 10,
    category := "Kitchen", status := TStatus.running, halfwayAlert := true,
    halfwayAlertTriggered := false }

/-- Sample timer: running with 1 second left (completes on next tick). -/
def lastSecondTimer : Timer :=
  { id := "t2", name := "Egg", duration := 5, remainingTime := 1,
    category := "Kitchen", status := TStatus.running, halfwayAlert := false,
    halfwayAlertTriggered := false }

/-- Sample timer: idle (used for the pause counterexample). -/
def idleTimer : Timer :=
  { id := "t3", name := "Stretch", duration := 60, remainingTime := 60,
    category := "Health", status := TStatus.idle, halfwayAlert := false,
    halfwayAlertTriggered := false }

/-- Sample timer: completed at zero. -/
def doneTimer : Timer :=
  { id := "t4", name := "Rice", duration := 2, remainingTime := 0,
    category := "Kitchen", status := TStatus.completed, halfwayAlert := false,
    halfwayAlertTriggered := false }

/-- Cooking timer 1 for the category scenario. -/
def cookOne : Timer :=
  { id := "c1", name := "Pasta", duration := 480, remainingTime := 480,
    category := "Cooking", status := TStatus.idle, halfwayAlert := false,
    halfwayAlertTriggered := false }

/-- Cooking timer 2 for the category scenario. -/
def cookTwo : Timer :=
  { id := "c2", name := "Sauce", duration := 300, remainingTime := 120,
    category := "Cooking", status := TStatus.paused, halfwayAlert := true,
    halfwayAlertTriggered := true }

/-- Study timer for the category scenario. -/
def studyOne : Timer :=
  { id := "s1", name := "Reading", duration := 1500, remainingTime := 1500,
    category := "Study", status := TStatus.idle, halfwayAlert := false,
    halfwayAlertTriggered := false }

/-- The three-timer snapshot of the category scenario. -/
def threeTimers : List Timer := [cookOne, cookTwo, studyOne]

/-- Sample timer: a 2-second running timer, used to exhibit a second
completion event after a `start` on a completed timer. -/
def riceTimer : Timer :=
  { id := "t9", name := "Rice", duration := 2, remainingTime := 2,
    category := "Kitchen", status := TStatus.running, halfwayAlert := false,
    halfwayAlertTriggered := false }

/-- Trace that runs `riceTimer` to zero (two ticks), then starts it
again while completed, then ticks once more. -/
def restartSteps : List TStep :=
  [TStep.tick, TStep.tick, TStep.act TAction.start, TStep.tick]

/-- Create-form input with duration string "0" (non-empty, so it passes
the source's only validation check). -/
def soupInput : NewTimerInput :=
  { name := "Soup", duration := "0", category := "Kitchen", halfwayAlert := false }

/-- The duration-zero timer the source builds from `soupInput`. -/
def soupZeroTimer : Timer :=
  { id := "id0", name := "Soup", duration := 0, remainingTime := 0,
    category := "Kitchen", status := TStatus.idle, halfwayAlert := false,
    halfwayAlertTriggered := false }

/-- Create-form input with an empty name (the claimed failing scenario). -/
def emptyNameInput : NewTimerInput :=
  { name := "", duration := "30", category := "X", halfwayAlert := false }

/-- Create-form input for a valid 30-second timer. -/
def teaInput : NewTimerInput :=
  { name := "Tea", duration := "30", category := "Kitchen", halfwayAlert := true }

/-- The timer the source builds from `teaInput`. -/
def teaThirty : Timer :=
  { id := "id1", name := "Tea", duration := 30, remainingTime := 30,
    category := "Kitchen", status := TStatus.idle, halfwayAlert := true,
    halfwayAlertTriggered := false }

theorem applyAction_preserves_id (a : TAction) (t : Timer) :
    (applyAction a t).id = t.id := by
  cases a <;> rfl

theorem applyAction_preserves_category (a : TAction) (t : Timer) :
    (applyAction a t).category = t.category := by
  cases a <;> rfl

theorem applyAction_idem (a : TAction) (t : Timer) :
    applyAction a (applyAction a t) = applyAction a t := by
  cases a <;> rfl

theorem snd_eq_of_mem_zip_map {α β : Type _} (f : α → β) (l : List α) :
    ∀ p ∈ l.zip (l.map f), p.2 = f p.1 := by
  induction l with
  | nil => intro p hp; simp at hp
  | cons a l ih =>
      intro p hp
      rw [List.map_cons, List.zip_cons_cons] at hp
      rcases List.mem_cons.mp hp with h | h
      · subst h; rfl
      · exact ih p h

theorem map_idem_of_idem {α : Type _} (f : α → α) (hf : ∀ x, f (f x) = f x)
    (l : List α) : (l.map f).map f = l.map f := by
  induction l with
  | nil => rfl
  | cons a l ih => simp only [List.map_cons, hf, ih]

/-- C3: the action dispatcher applies the action table unconditionally
to every targeted timer, regardless of its current status: `start` sets
status to running (inheriting `remainingTime` and
`halfwayAlertTriggered` unchanged, also from a completed timer),
`pause` sets status to paused, and `reset` restores `remainingTime =
duration`, status idle, and clears the halfway latch; `handleTimerAction`
applies exactly this switch to the timer whose id matches, positionally. -/
theorem c3_action_table :
    (∀ t : Timer,
      applyAction TAction.start t = { t with status := TStatus.running } ∧
      applyAction TAction.pause t = { t with status := TStatus.paused } ∧
      applyAction TAction.reset t =
        { t with remainingTime := t.duration, status := TStatus.idle,
                 halfwayAlertTriggered := false }) ∧
    (∀ (timers : List Timer) (timerId : String) (a : TAction),
      ∀ p ∈ timers.zip (handleTimerAction timers timerId a),
        (p.1.id = timerId → p.2 = applyAction a p.1) ∧
        (p.1.id ≠ timerId → p.2 = p.1)) := by
  constructor
  · intro t
    exact ⟨rfl, rfl, rfl⟩
  · intro timers timerId a p hp
    unfold handleTimerAction at hp
    have h := snd_eq_of_mem_zip_map _ timers p hp
    constructor
    · intro hid
      rw [h]
      simp [hid]
    · intro hid
      rw [h]
      simp [hid]

theorem c3_witness :
    { doneTimer with status := TStatus.running } = applyAction TAction.start doneTimer :=
  ((c3_action_table.2 [doneTimer] "t4" TAction.start
    (doneTimer, { doneTimer with status := TStatus.running }) (by decide)).1 (by decide))

/-- C7 counterexample: a `pause` action on a timer that is not running
is not a no-op — the dispatcher sets its status to `paused`
unconditionally, both through `handleTimerAction` and through a
category-wide pause. -/
theorem c7_counterexample :
    idleTimer.status = TStatus.idle ∧
    (applyAction TAction.pause idleTimer).status = TStatus.paused ∧
    handleTimerAction [idleTimer] "t3" TAction.pause ≠ [idleTimer] ∧
    handleCategoryAction [idleTimer] "Health" TAction.pause ≠ [idleTimer] := by
  refine ⟨rfl, rfl, ?_, ?_⟩ <;> decide

/-- C7 amended: `pause` sets status to `paused` unconditionally,
regardless of the timer's current status, leaving every other field
unchanged (the single-timer UI disables the pause button for
non-running timers, but the dispatcher itself — and any category pause
— applies the table to non-running timers too). -/
theorem c7_amended_pause_unconditional :
    ∀ t : Timer, applyAction TAction.pause t = { t with status := TStatus.paused } :=
  fun _ => rfl

/-- C8: a category action maps the action table over exactly the
members of the category: the result has the same length, every member
position holds `applyAction` of the old timer, and every non-member
position holds the old timer unchanged. -/
theorem c8_category_frame :
    ∀ (timers : List Timer) (category : String) (a : TAction),
      (handleCategoryAction timers category a).length = timers.length ∧
      ∀ p ∈ timers.zip (handleCategoryAction timers category a),
        (p.1.category = category → p.2 = applyAction a p.1) ∧
        (p.1.category ≠ category → p.2 = p.1) := by
  intro timers category a
  constructor
  · simp [handleCategoryAction]
  · intro p hp
    unfold handleCategoryAction at hp
    have h := snd_eq_of_mem_zip_map _ timers p hp
    constructor
    · intro hc
      rw [h]
      simp [hc]
    · intro hc
      rw [h]
      simp [hc]

theorem c8_witness :
    (handleCategoryAction threeTimers "Cooking" TAction.start).length = threeTimers.length ∧
    { cookOne with status := TStatus.running } = applyAction TAction.start cookOne ∧
    studyOne = studyOne :=
  ⟨(c8_category_frame threeTimers "Cooking" TAction.start).1,
   ((c8_category_frame threeTimers "Cooking" TAction.start).2
     (cookOne, { cookOne with status := TStatus.running }) (by decide)).1 (by decide),
   ((c8_category_frame threeTimers "Cooking" TAction.start).2
     (studyOne, studyOne) (by decide)).2 (by decide)⟩

theorem wf_tickTimer (t : Timer) (h : wfTimer t) : wfTimer (tickTimer t).1 := by
  obtain ⟨h1, h2, h3⟩ := h
  unfold wfTimer tickTimer
  split_ifs with hs hle hhalf
  · exact ⟨h1, h2, h3⟩
  · exact ⟨h1, le_refl 0, le_of_lt h1⟩
  · refine ⟨?_, ?_, ?_⟩ <;> simp <;> omega
  · refine ⟨?_, ?_, ?_⟩ <;> simp <;> omega

theorem wf_applyAction (a : TAction) (t : Timer) (h : wfTimer t) :
    wfTimer (applyAction a t) := by
  obtain ⟨h1, h2, h3⟩ := h
  cases a
  · exact ⟨h1, h2, h3⟩
  · exact ⟨h1, h2, h3⟩
  · exact ⟨h1, le_of_lt h1, le_refl t.duration⟩

/-- C1: on a tick, a running timer is updated from `newRemaining =
remainingTime - 1`: when `newRemaining <= 0` the timer is set to
`remainingTime = 0`, status `completed`, and a completion event is
emitted — and the halfway branch is skipped (no halfway event, latch
untouched); when `newRemaining > 0` and the halfway branch does not
apply, only `remainingTime` is set to `newRemaining` and no event is
emitted. -/
theorem c1_tick_update (t : Timer) (hrun : t.status = TStatus.running) :
    (t.remainingTime - 1 ≤ 0 →
      (tickTimer t).1 = { t with remainingTime := 0, status := TStatus.completed } ∧
      (tickTimer t).2 = some (TimerEvent.completion t.id t.name t.category) ∧
      isHalfwayEvent (tickTimer t).2 = false ∧
      (tickTimer t).1.halfwayAlertTriggered = t.halfwayAlertTriggered) ∧
    (0 < t.remainingTime - 1 →
      ¬(t.halfwayAlert = true ∧ t.halfwayAlertTriggered = false ∧
          2 * (t.remainingTime - 1) ≤ t.duration) →
      (tickTimer t).1 = { t with remainingTime := t.remainingTime - 1 } ∧
      (tickTimer t).2 = none) := by
  constructor
  · intro hle
    refine ⟨?_, ?_, ?_, ?_⟩ <;> simp [tickTimer, hrun, hle, isHalfwayEvent]
  · intro hpos hcond
    have hgt : ¬(t.remainingTime - 1 ≤ 0) := by omega
    constructor <;> simp [tickTimer, hrun, hgt, hcond]

theorem c1_witness :
    (tickTimer lastSecondTimer).1 =
      { lastSecondTimer with remainingTime := 0, status := TStatus.completed } ∧
    (tickTimer lastSecondTimer).2 = some (TimerEvent.completion "t2" "Egg" "Kitchen") ∧
    isHalfwayEvent (tickTimer lastSecondTimer).2 = false ∧
    (tickTimer lastSecondTimer).1.halfwayAlertTriggered =
      lastSecondTimer.halfwayAlertTriggered :=
  (c1_tick_update lastSecondTimer rfl).1 (by decide)

/-- C4: a well-formed timer (`0 < duration`, `0 <= remainingTime <=
duration`) stays well-formed after a tick and after every start, pause,
or reset action, single-timer or category-wide. -/
theorem c4_wf_preserved :
    ∀ timers : List Timer, (∀ t ∈ timers, wfTimer t) →
      (∀ t ∈ advanceTimers timers, wfTimer t) ∧
      (∀ (timerId : String) (a : TAction),
        ∀ t ∈ handleTimerAction timers timerId a, wfTimer t) ∧
      (∀ (category : String) (a : TAction),
        ∀ t ∈ handleCategoryAction timers category a, wfTimer t) := by
  intro timers hwf
  refine ⟨?_, ?_, ?_⟩
  · intro t ht
    unfold advanceTimers at ht
    rcases List.mem_map.mp ht with ⟨u, hu, rfl⟩
    exact wf_tickTimer u (hwf u hu)
  · intro timerId a t ht
    unfold handleTimerAction at ht
    rcases List.mem_map.mp ht with ⟨u, hu, rfl⟩
    by_cases h : u.id ≠ timerId
    · rw [if_pos h]
      exact hwf u hu
    · rw [if_neg h]
      exact wf_applyAction a u (hwf u hu)
  · intro category a t ht
    unfold handleCategoryAction at ht
    rcases List.mem_map.mp ht with ⟨u, hu, rfl⟩
    by_cases h : u.category ≠ category
    · rw [if_pos h]
      exact hwf u hu
    · rw [if_neg h]
      exact wf_applyAction a u (hwf u hu)

theorem c4_witness :
    wfTimer { teaTimer with remainingTime := 9 } :=
  (c4_wf_preserved [teaTimer] (by decide)).1
    { teaTimer with remainingTime := 9 } (by decide)

/-- C10: each of the three actions is idempotent on the snapshot, both
through `handleTimerAction` and through `handleCategoryAction`:
applying the same action to the same target twice yields the snapshot
of applying it once. -/
theorem c10_actions_idempotent :
    ∀ (timers : List Timer) (timerId : String) (category : String) (a : TAction),
      handleTimerAction (handleTimerAction timers timerId a) timerId a =
        handleTimerAction timers timerId a ∧
      handleCategoryAction (handleCategoryAction timers category a) category a =
        handleCategoryAction timers category a := by
  intro timers timerId category a
  constructor
  · unfold handleTimerAction
    apply map_idem_of_idem
    intro t
    by_cases h : t.id = timerId
    · simp [h, applyAction_preserves_id, applyAction_idem]
    · simp [h]
  · unfold handleCategoryAction
    apply map_idem_of_idem
    intro t
    by_cases h : t.category = category
    · simp [h, applyAction_preserves_category, applyAction_idem]
    · simp [h]

/-- C5 counterexample: the source's create path only checks that the
three text fields are non-empty; the duration string "0" passes the
check, `parseInt` yields 0, and a timer with duration 0 is added — the
claim says any duration that does not parse to a positive integer is
rejected with a validation error and no timer is added. -/
theorem c5_counterexample :
    handleAddTimer soupInput "id0" = CreateOutcome.added soupZeroTimer ∧
    handleAddTimerState soupInput [] "id0" = some [soupZeroTimer] := by
  constructor <;> rfl

/-- C5 amended: `handleAddTimer` fails with the validation alert, and
leaves the timer collection unchanged, exactly when the name, duration,
or category input is the empty string; the duration string is otherwise
passed to `parseInt` with no positivity or numeric check (so "0" or
"-5" create timers with non-positive durations). In particular create
with an empty name and duration "30" fails and adds no timer. -/
theorem c5_amended_create_checks_emptiness_only :
    ∀ (nt : NewTimerInput) (newId : String) (timers : List Timer),
      (handleAddTimer nt newId = CreateOutcome.validationError ↔
        (nt.name = "" ∨ nt.duration = "" ∨ nt.category = "")) ∧
      (handleAddTimer nt newId = CreateOutcome.validationError →
        handleAddTimerState nt timers newId = some timers) := by
  intro nt newId timers
  constructor
  · constructor
    · intro h
      by_contra hne
      unfold handleAddTimer at h
      rw [if_neg hne] at h
      revert h
      cases jsParseInt nt.duration <;> exact fun h => CreateOutcome.noConfusion h
    · intro h
      unfold handleAddTimer
      rw [if_pos h]
  · intro h
    unfold handleAddTimerState
    rw [h]

theorem c5_witness :
    handleAddTimerState emptyNameInput [teaTimer] "id9" = some [teaTimer] :=
  (c5_amended_create_checks_emptiness_only emptyNameInput "id9" [teaTimer]).2 (by decide)

/-- C9: every timer the create path actually adds starts idle, with
`remainingTime` equal to its duration and the halfway latch clear. -/
theorem c9_created_timer_initial_state :
    ∀ (nt : NewTimerInput) (newId : String) (t : Timer),
      handleAddTimer nt newId = CreateOutcome.added t →
      t.status = TStatus.idle ∧ t.remainingTime = t.duration ∧
      t.halfwayAlertTriggered = false := by
  intro nt newId t h
  unfold handleAddTimer at h
  split at h
  · exact CreateOutcome.noConfusion h
  · split at h
    · injection h with h2
      subst h2
      exact ⟨rfl, rfl, rfl⟩
    · exact CreateOutcome.noConfusion h

theorem c9_witness :
    teaThirty.status = TStatus.idle ∧
    teaThirty.remainingTime = teaThirty.duration ∧
    teaThirty.halfwayAlertTriggered = false :=
  c9_created_timer_initial_state teaInput "id1" teaThirty (by decide)

theorem tickTimer_latch_mono (t : Timer) (h : t.halfwayAlertTriggered = true) :
    ((tickTimer t).1).halfwayAlertTriggered = true := by
  unfold tickTimer
  split_ifs with hs hle hhalf
  · exact h
  · exact h
  · rfl
  · exact h

theorem stepTimer_latch_mono (s : TStep) (t : Timer) (hs : s ≠ TStep.act TAction.reset)
    (h : t.halfwayAlertTriggered = true) :
    (stepTimer s t).halfwayAlertTriggered = true := by
  cases s with
  | tick => exact tickTimer_latch_mono t h
  | act a =>
      cases a with
      | start => exact h
      | pause => exact h
      | reset => exact absurd rfl hs

theorem countLatchSets_of_latched :
    ∀ (steps : List TStep) (t : Timer), t.halfwayAlertTriggered = true →
      TStep.act TAction.reset ∉ steps → countLatchSets t steps = 0 := by
  intro steps
  induction steps with
  | nil => intro t _ _; rfl
  | cons s rest ih =>
      intro t ht hnr
      have hs : s ≠ TStep.act TAction.reset := by
        intro hc
        exact hnr (hc ▸ List.mem_cons_self s rest)
      simp only [countLatchSets]
      rw [if_neg (by simp [ht]), Nat.zero_add]
      exact ih (stepTimer s t) (stepTimer_latch_mono s t hs ht)
        (fun hm => hnr (List.mem_cons_of_mem s hm))

/-- C2: the halfway latch only transitions from `false` to `true` at a
tick, while the timer is running, the halfway alert is enabled, and the
new remaining time is at most half the duration; a halfway alert event
is emitted at a step exactly when the latch makes that transition; a
non-reset step never clears the latch; along any trace free of reset
actions the latch is set at most once; and the reset action always
restores the latch to `false`. -/
theorem c2_halfway_latch :
    (∀ t : Timer, (stepTimer TStep.tick t).halfwayAlertTriggered = true →
      t.halfwayAlertTriggered = true ∨
      (t.status = TStatus.running ∧ t.halfwayAlert = true ∧
        0 < t.remainingTime - 1 ∧ 2 * (t.remainingTime - 1) ≤ t.duration)) ∧
    (∀ (s : TStep) (t : Timer),
      isHalfwayEvent (stepEvent s t) = true ↔
        (t.halfwayAlertTriggered = false ∧ (stepTimer s t).halfwayAlertTriggered = true)) ∧
    (∀ (s : TStep) (t : Timer), s ≠ TStep.act TAction.reset →
      t.halfwayAlertTriggered = true → (stepTimer s t).halfwayAlertTriggered = true) ∧
    (∀ (steps : List TStep) (t : Timer), TStep.act TAction.reset ∉ steps →
      countLatchSets t steps ≤ 1) ∧
    (∀ t : Timer, (applyAction TAction.reset t).halfwayAlertTriggered = false) := by
  refine ⟨?_, ?_, ?_, ?_, ?_⟩
  · intro t h
    unfold stepTimer tickTimer at h
    split_ifs at h with hs hle hhalf
    · exact Or.inl h
    · exact Or.inl h
    · exact Or.inr ⟨not_not.mp hs, hhalf.1, by omega, hhalf.2.2⟩
    · exact Or.inl h
  · intro s t
    cases s with
    | tick =>
        unfold stepEvent stepTimer tickTimer
        split_ifs with hs hle hhalf
        · constructor
          · intro h; exact Bool.noConfusion h
          · rintro ⟨h1, h2⟩
            exact Bool.noConfusion
              (h1.symm.trans (show t.halfwayAlertTriggered = true from h2))
        · constructor
          · intro h; exact Bool.noConfusion h
          · rintro ⟨h1, h2⟩
            exact Bool.noConfusion
              (h1.symm.trans (show t.halfwayAlertTriggered = true from h2))
        · constructor
          · intro _; exact ⟨hhalf.2.1, rfl⟩
          · intro _; rfl
        · constructor
          · intro h; exact Bool.noConfusion h
          · rintro ⟨h1, h2⟩
            exact Bool.noConfusion
              (h1.symm.trans (show t.halfwayAlertTriggered = true from h2))
    | act a =>
        constructor
        · intro h; exact Bool.noConfusion h
        · rintro ⟨h1, h2⟩
          cases a
          · exact Bool.noConfusion
              (h1.symm.trans (show t.halfwayAlertTriggered = true from h2))
          · exact Bool.noConfusion
              (h1.symm.trans (show t.halfwayAlertTriggered = true from h2))
          · exact Bool.noConfusion (show false = true from h2)
  · exact stepTimer_latch_mono
  · intro steps
    induction steps with
    | nil => intro t _; exact Nat.zero_le 1
    | cons s rest ih =>
        intro t hnr
        have hrest : TStep.act TAction.reset ∉ rest :=
          fun hm => hnr (List.mem_cons_of_mem s hm)
        simp only [countLatchSets]
        by_cases htr : t.halfwayAlertTriggered = false ∧
            (stepTimer s t).halfwayAlertTriggered = true
        · rw [if_pos htr,
            countLatchSets_of_latched rest (stepTimer s t) htr.2 hrest]
        · rw [if_neg htr, Nat.zero_add]
          exact ih (stepTimer s t) hrest
  · intro t
    rfl

theorem c2_witness :
    countLatchSets teaTimer
      [TStep.tick, TStep.tick, TStep.act TAction.pause, TStep.tick] ≤ 1 :=
  c2_halfway_latch.2.2.2.1
    [TStep.tick, TStep.tick, TStep.act TAction.pause, TStep.tick] teaTimer (by decide)

theorem tick_not_running (t : Timer) (h : t.status ≠ TStatus.running) :
    tickTimer t = (t, none) := by
  unfold tickTimer
  rw [if_pos h]

theorem stepTimer_stays_not_running (s : TStep) (t : Timer)
    (hs : s ≠ TStep.act TAction.start) (h : t.status ≠ TStatus.running) :
    (stepTimer s t).status ≠ TStatus.running := by
  cases s with
  | tick =>
      show (tickTimer t).1.status ≠ TStatus.running
      rw [tick_not_running t h]
      exact h
  | act a =>
      cases a with
      | start => exact absurd rfl hs
      | pause =>
          intro hc
          exact TStatus.noConfusion (show TStatus.paused = TStatus.running from hc)
      | reset =>
          intro hc
          exact TStatus.noConfusion (show TStatus.idle = TStatus.running from hc)

theorem countCompletions_of_not_running :
    ∀ (steps : List TStep) (t : Timer), t.status ≠ TStatus.running →
      TStep.act TAction.start ∉ steps → countCompletions t steps = 0 := by
  intro steps
  induction steps with
  | nil => intro t _ _; rfl
  | cons s rest ih =>
      intro t ht hns
      have hs : s ≠ TStep.act TAction.start :=
        fun hc => hns (hc ▸ List.mem_cons_self s rest)
      have hev : isCompletionEvent (stepEvent s t) = false := by
        cases s with
        | tick =>
            show isCompletionEvent (tickTimer t).2 = false
            rw [tick_not_running t ht]
            rfl
        | act a => rfl
      simp only [countCompletions, hev]
      rw [if_neg (fun hc => Bool.noConfusion hc), Nat.zero_add]
      exact ih (stepTimer s t) (stepTimer_stays_not_running s t hs ht)
        (fun hm => hns (List.mem_cons_of_mem s hm))

theorem tickTimer_completed_of_emits (t : Timer) :
    isCompletionEvent (tickTimer t).2 = true →
      (tickTimer t).1.status = TStatus.completed := by
  unfold tickTimer
  split_ifs with hs hle hhalf
  · intro h; exact Bool.noConfusion h
  · intro _; rfl
  · intro h; exact Bool.noConfusion h
  · intro h; exact Bool.noConfusion h

theorem tickTimer_no_completion (t : Timer) (hgt : ¬(t.remainingTime - 1 ≤ 0)) :
    isCompletionEvent (tickTimer t).2 = false := by
  unfold tickTimer
  split_ifs with h1 h2 <;> rfl

theorem tickTimer_running_progress (t : Timer) (h1 : t.status = TStatus.running)
    (hgt : ¬(t.remainingTime - 1 ≤ 0)) :
    (tickTimer t).1.status = TStatus.running ∧
    (tickTimer t).1.remainingTime = t.remainingTime - 1 := by
  unfold tickTimer
  rw [if_neg (by simp [h1]), if_neg hgt]
  split_ifs with hhalf
  · exact ⟨h1, rfl⟩
  · exact ⟨h1, rfl⟩

theorem no_start_in_replicate_tick (n : Nat) :
    TStep.act TAction.start ∉ List.replicate n TStep.tick := by
  intro hm
  exact TStep.noConfusion (List.eq_of_mem_replicate hm)

/-- C6 counterexample: run a 2-second timer down (one completion event
at the tick where `remainingTime` becomes 0), then `start` it while
completed (allowed by the dispatcher, reachable through a category
start) and tick once more: a second completion event is emitted even
though the timer never ran down to zero again — indeed its
`remainingTime` was already 0 before that last tick. -/
theorem c6_counterexample :
    countCompletions riceTimer restartSteps = 2 ∧
    (runTimer riceTimer [TStep.tick, TStep.tick, TStep.act TAction.start]).remainingTime = 0 ∧
    isCompletionEvent
      (stepEvent TStep.tick
        (runTimer riceTimer [TStep.tick, TStep.tick, TStep.act TAction.start])) = true := by
  refine ⟨?_, ?_, ?_⟩ <;> rfl

/-- C6 amended: a tick emits a completion event exactly when the timer
is running with `remainingTime <= 1`, and such a tick sets
`remainingTime` to 0 and the status to `completed`; along any trace
with no `start` action at most one completion event is emitted; and a
running timer with `1 <= remainingTime <= n` emits exactly one
completion event over `n` ticks — so exactly one per run-to-zero,
unless a completed timer is made running again by a `start` action
(reachable through a category start), which re-emits a completion at
the next tick. -/
theorem c6_amended_completion_events :
    (∀ t : Timer, isCompletionEvent (tickTimer t).2 = true ↔
      (t.status = TStatus.running ∧ t.remainingTime ≤ 1)) ∧
    (∀ t : Timer, t.status = TStatus.running → t.remainingTime ≤ 1 →
      (tickTimer t).1.remainingTime = 0 ∧ (tickTimer t).1.status = TStatus.completed) ∧
    (∀ (steps : List TStep) (t : Timer), TStep.act TAction.start ∉ steps →
      countCompletions t steps ≤ 1) ∧
    (∀ (n : Nat) (t : Timer), t.status = TStatus.running →
      1 ≤ t.remainingTime → t.remainingTime ≤ (n : Int) →
      countCompletions t (List.replicate n TStep.tick) = 1) := by
  refine ⟨?_, ?_, ?_, ?_⟩
  · intro t
    unfold tickTimer
    split_ifs with hs hle hhalf
    · constructor
      · intro h; exact Bool.noConfusion h
      · rintro ⟨hr, _⟩; exact absurd hr hs
    · constructor
      · intro _; exact ⟨not_not.mp hs, by omega⟩
      · intro _; rfl
    · constructor
      · intro h; exact Bool.noConfusion h
      · rintro ⟨_, hrem⟩; omega
    · constructor
      · intro h; exact Bool.noConfusion h
      · rintro ⟨_, hrem⟩; omega
  · intro t h1 h2
    unfold tickTimer
    rw [if_neg (by simp [h1]), if_pos (by omega)]
    exact ⟨rfl, rfl⟩
  · intro steps
    induction steps with
    | nil => intro t _; exact Nat.zero_le 1
    | cons s rest ih =>
        intro t hns
        have hs : s ≠ TStep.act TAction.start :=
          fun hc => hns (hc ▸ List.mem_cons_self s rest)
        have hrest : TStep.act TAction.start ∉ rest :=
          fun hm => hns (List.mem_cons_of_mem s hm)
        simp only [countCompletions]
        by_cases hev : isCompletionEvent (stepEvent s t) = true
        · rw [if_pos hev]
          have hdone : (stepTimer s t).status ≠ TStatus.running := by
            cases s with
            | tick =>
                show (tickTimer t).1.status ≠ TStatus.running
                rw [tickTimer_completed_of_emits t hev]
                exact fun hc => TStatus.noConfusion hc
            | act a => exact absurd hev (by simp [stepEvent, isCompletionEvent])
          rw [countCompletions_of_not_running rest (stepTimer s t) hdone hrest]
        · rw [if_neg hev, Nat.zero_add]
          exact ih (stepTimer s t) hrest
  · intro n
    induction n with
    | zero =>
        intro t _ h2 h3
        exfalso
        omega
    | succ n ih =>
        intro t h1 h2 h3
        rw [List.replicate_succ]
        simp only [countCompletions]
        by_cases hle : t.remainingTime - 1 ≤ 0
        · have hev : isCompletionEvent (stepEvent TStep.tick t) = true := by
            show isCompletionEvent (tickTimer t).2 = true
            unfold tickTimer
            rw [if_neg (by simp [h1]), if_pos hle]
            rfl
          rw [if_pos hev]
          have hdone : (stepTimer TStep.tick t).status ≠ TStatus.running := by
            show (tickTimer t).1.status ≠ TStatus.running
            rw [tickTimer_completed_of_emits t hev]
            exact fun hc => TStatus.noConfusion hc
          rw [countCompletions_of_not_running (List.replicate n TStep.tick)
            (stepTimer TStep.tick t) hdone (no_start_in_replicate_tick n)]
        · have hev : isCompletionEvent (stepEvent TStep.tick t) = false :=
            tickTimer_no_completion t hle
          rw [if_neg (fun hc => Bool.noConfusion (hev.symm.trans hc)), Nat.zero_add]
          have hprog := tickTimer_running_progress t h1 hle
          refine ih (stepTimer TStep.tick t) hprog.1 ?_ ?_
          · show 1 ≤ (tickTimer t).1.remainingTime
            rw [hprog.2]
            omega
          · show (tickTimer t).1.remainingTime ≤ (n : Int)
            rw [hprog.2]
            push_cast at h3 ⊢
            omega

theorem c6_witness :
    countCompletions lastSecondTimer (List.replicate 3 TStep.tick) = 1 :=
  c6_amended_completion_events.2.2.2 3 lastSecondTimer rfl (by decide) (by decide)

end TimerApp
